import Mathlib

/-!
# Verification of the communication-channel layer of security-compliance-cli

Shallow embedding of `src/serial_channel.rs`, `src/serial_channel_windows.rs`,
`src/ssh_channel.rs` and `src/ssh.rs`.  Strings are modelled as `List Char`
(the crate operates on ASCII transcripts, so Rust byte indices coincide with
character indices).  Stateful methods become explicit state-passing functions;
the serial port / SSH session environment is an explicit record of the
outcomes of the individual I/O steps.
-/

namespace SecCli

/-- The ASCII escape character `\x1b`. -/
def escCh : Char := Char.ofNat 27

/-- The pattern `"$ "` used as generic fallback prompt. -/
def pDollar : List Char := "$ ".data

/-- The pattern `"# "` used as generic fallback prompt. -/
def pHash : List Char := "# ".data

/-- Rust `char::is_ascii_alphabetic`. -/
def isAsciiAlphabetic (c : Char) : Bool :=
  (('A' ≤ c && c ≤ 'Z') || ('a' ≤ c && c ≤ 'z'))

/-- Whitespace as trimmed by Rust `str::trim` (restricted to the ASCII
whitespace characters that occur in serial transcripts). -/
def isRustWhitespace (c : Char) : Bool :=
  c = ' ' || c = '\t' || c = '\n' || c = '\r'

/-- Rust `str::trim`: remove leading and trailing whitespace. -/
def rustTrim (s : List Char) : List Char :=
  ((s.dropWhile isRustWhitespace).reverse.dropWhile isRustWhitespace).reverse

/-- Remove one trailing `'\r'`, as Rust `str::lines` does on each line
(`\r\n` line endings). -/
def stripTrailingCR (s : List Char) : List Char :=
  match s.getLast? with
  | some c => if c = '\r' then s.dropLast else s
  | none => s

/-- Rust `str::lines`: split at `'\n'` (terminator semantics: a final empty
segment produced by a trailing `'\n'`, or by the empty string, is dropped),
then strip one trailing `'\r'` from each line. -/
def rustLines (s : List Char) : List (List Char) :=
  let parts := s.splitOn '\n'
  let parts :=
    match parts.getLast? with
    | some last => if last = [] then parts.dropLast else parts
    | none => parts
  parts.map stripTrailingCR

/-- Rust `Vec::join("\n")` / `str::join` on lines. -/
def joinLines (ls : List (List Char)) : List Char :=
  List.intercalate ['\n'] ls

/-- Rust `str::find(pattern)`: index of the first occurrence of `pat` in `s`
(`some s.length`-style semantics for the empty pattern match at the end are
the same as Rust's: the first match of the empty pattern is at index 0). -/
def findStrIdx (pat s : List Char) : Option Nat :=
  (List.range (s.length + 1)).find? (fun i => pat.isPrefixOf (s.drop i))

/-- Rust `str::rfind(pattern)`: index of the last occurrence of `pat` in `s`. -/
def rfindStrIdx (pat s : List Char) : Option Nat :=
  ((List.range (s.length + 1)).reverse).find? (fun i => pat.isPrefixOf (s.drop i))

/-- Rust `str::contains(pattern)`: substring test. -/
def containsStr (s pat : List Char) : Bool :=
  (findStrIdx pat s).isSome

/-!
## `strip_ansi_codes` — `serial_channel.rs` lines 18–41 and
`serial_channel_windows.rs` lines 271–294

The Rust functions walk a peekable character iterator.  We render the same
control flow as a three-state machine:

* `normal` — top of the `while let` loop;
* `sawEsc` — an ESC has just been consumed and the next character is being
  inspected (Unix: `chars.peek()`, so a non-`'['` character is *not*
  consumed; Windows: `chars.next()`, so it *is* consumed);
* `inCsi`  — inside `ESC [`, consuming until the first ASCII-alphabetic
  terminator (inclusive).
-/

inductive AnsiMode where
  | normal : AnsiMode
  | sawEsc : AnsiMode
  | inCsi : AnsiMode
deriving DecidableEq

/-- Unix `strip_ansi_codes` (`serial_channel.rs:18-41`), as a state machine. -/
def stripAnsiGo : AnsiMode → List Char → List Char
  | _, [] => []
  | .normal, c :: rest =>
      if c = escCh then stripAnsiGo .sawEsc rest
      else c :: stripAnsiGo .normal rest
  | .sawEsc, c :: rest =>
      if c = '[' then stripAnsiGo .inCsi rest
      else if c = escCh then stripAnsiGo .sawEsc rest
      else c :: stripAnsiGo .normal rest
  | .inCsi, c :: rest =>
      if isAsciiAlphabetic c then stripAnsiGo .normal rest
      else stripAnsiGo .inCsi rest

/-- Model of `strip_ansi_codes` from `serial_channel.rs`: on ESC, peek for `'['`; if
present, drop characters up to and including the first ASCII-alphabetic one;
an ESC not followed by `'['` is itself dropped (the peeked character is not
consumed); every other character passes through. -/
def stripAnsi (s : List Char) : List Char :=
  stripAnsiGo .normal s

/-- Windows `strip_ansi_codes` (`serial_channel_windows.rs:271-294`), as a
state machine.  Differences from the Unix version: the character after an ESC
is consumed unconditionally (`chars.next()`), and carriage returns are
dropped in normal mode (`else if ch != '\r'`). -/
def stripAnsiWinGo : AnsiMode → List Char → List Char
  | _, [] => []
  | .normal, c :: rest =>
      if c = escCh then stripAnsiWinGo .sawEsc rest
      else if c = '\r' then stripAnsiWinGo .normal rest
      else c :: stripAnsiWinGo .normal rest
  | .sawEsc, c :: rest =>
      if c = '[' then stripAnsiWinGo .inCsi rest
      else stripAnsiWinGo .normal rest
  | .inCsi, c :: rest =>
      if isAsciiAlphabetic c then stripAnsiWinGo .normal rest
      else stripAnsiWinGo .inCsi rest

/-- Model of `WindowsSerialChannel::strip_ansi_codes`. -/
def stripAnsiWin (s : List Char) : List Char :=
  stripAnsiWinGo .normal s

/-!
## The serial command read loop —
`SerialChannel::execute_command_with_timeout`, `serial_channel.rs:354-507`

The loop body (lines 396–487) is a pure function of the accumulated raw
buffer, the working `stdout`, the `command_echo_seen` flag, and the newly
read chunk.  `runSerialLoop` folds it over the list of successful reads
(chunks) delivered before the deadline; a chunking of a transcript is any
list of chunks whose concatenation is the transcript.
-/

/-- In-flight state of the read loop of `execute_command_with_timeout`:
the raw accumulated `buffer`, the working `stdout`, the `command_echo_seen`
flag, and whether the loop has `break`-ed (prompt seen). -/
structure LoopState where
  buffer : List Char
  stdout : List Char
  echoSeen : Bool
  done : Bool
deriving DecidableEq, Repr

/-- Initial loop state: empty buffer, empty stdout (`serial_channel.rs:383-387`). -/
def initLoopState : LoopState := ⟨[], [], false, false⟩

/-- Lines 414–423: find the line whose trimmed text contains (or ends with)
the trimmed command, and start after it; `start_index` stays `0` when no
line matches. -/
def echoStartIndex (cmd : List Char) (lines : List (List Char)) : Nat :=
  match lines.findIdx? (fun l =>
      containsStr (rustTrim l) (rustTrim cmd) || (rustTrim cmd).isSuffixOf (rustTrim l)) with
  | some i => i + 1
  | none => 0

/-- Lines 468–474: `for prompt_pattern in ["$ ", "# ", &shell_prompt]`, on the
first pattern with an `rfind` hit truncate `stdout` at that (last) occurrence
and stop. -/
def removePrompt (shellPrompt s : List Char) : List Char :=
  match rfindStrIdx pDollar s with
  | some pos => s.take pos
  | none =>
      match rfindStrIdx pHash s with
      | some pos => s.take pos
      | none =>
          match rfindStrIdx shellPrompt s with
          | some pos => s.take pos
          | none => s

/-- Lines 468–475: prompt removal followed by `stdout.trim()`. -/
def removePromptAndTrim (shellPrompt s : List Char) : List Char :=
  rustTrim (removePrompt shellPrompt s)

/-- Line 459–464: completion test on the whole stripped buffer. -/
def hasPromptIn (shellPrompt clean : List Char) : Bool :=
  shellPrompt.isSuffixOf clean || containsStr clean shellPrompt ||
    pDollar.isSuffixOf clean || pHash.isSuffixOf clean ||
    containsStr clean pDollar || containsStr clean pHash

/-- One `Ok(n)` iteration of the read loop (`serial_channel.rs:396-487`) on a
newly read `chunk`; an empty chunk is the `Ok(0)` sleep-and-retry case.
Returns the updated state.  The `none` result of the echo phase models the
`continue` at line 431, which skips the prompt check. -/
def serialStep (cmd shellPrompt : List Char) (st : LoopState) (chunk : List Char) :
    LoopState :=
  if st.done then st
  else if chunk.isEmpty then st
  else
    let buffer := st.buffer ++ chunk
    let clean := stripAnsi buffer
    -- echo phase: `some (stdout, echoSeen)` falls through to the prompt
    -- check, `none` is the `continue` that skips it
    let phase : Option (List Char × Bool) :=
      if !st.echoSeen then
        if clean.contains '\n' then
          let lines := rustLines clean
          let si := echoStartIndex cmd lines
          if si < lines.length then some (joinLines (lines.drop si), true)
          else none
        else some (st.stdout, false)
      else
        let lines := rustLines clean
        match (rustLines st.stdout).getLast? with
        | some lastLine =>
            match lines.findIdx? (fun l => rustTrim l == rustTrim lastLine) with
            | some pos =>
                if pos + 1 < lines.length then
                  some (st.stdout ++ '\n' :: joinLines (lines.drop (pos + 1)), true)
                else some (st.stdout, true)
            | none => some (clean, true)
        | none => some (clean, true)
    match phase with
    | none => { st with buffer := buffer }
    | some (stdout, echoSeen) =>
        if hasPromptIn shellPrompt clean then
          ⟨buffer, removePromptAndTrim shellPrompt stdout, echoSeen, true⟩
        else ⟨buffer, stdout, echoSeen, false⟩

/-- The whole read loop over the chunks delivered before the deadline. -/
def runSerialLoop (cmd shellPrompt : List Char) (chunks : List (List Char)) :
    LoopState :=
  chunks.foldl (serialStep cmd shellPrompt) initLoopState

/-- Split a transcript into one-character chunks (byte-at-a-time delivery). -/
def byteChunks (transcript : List Char) : List (List Char) :=
  transcript.map (fun c => [c])

/-- The transcript of the spec's echo-separation example. -/
def echoTranscript : List Char := "echo hi\r\nhi\r\n$ ".data

/-!
## Error type and command results (`error.rs`, `communication.rs`)

The channel implementations construct the variants below (`Communication`,
`SerialConnection`, `CommandExecution`, `SshConnection`, `SshAuth`, `Config`,
`Unsupported`); messages are carried verbatim where a claim depends on them.
-/

/-- Decidable equality of `Except` results, for evaluating the models on
concrete inputs. -/
instance exceptDecEq {ε α : Type} [DecidableEq ε] [DecidableEq α] :
    DecidableEq (Except ε α) := fun a b =>
  match a, b with
  | .ok x, .ok y =>
      if h : x = y then .isTrue (by rw [h]) else .isFalse (by simp [h])
  | .error x, .error y =>
      if h : x = y then .isTrue (by rw [h]) else .isFalse (by simp [h])
  | .ok _, .error _ => .isFalse (by simp)
  | .error _, .ok _ => .isFalse (by simp)

/-- The error kinds produced by the communication-channel layer. -/
inductive RErr where
  | communication : List Char → RErr
  | serialConnection : List Char → RErr
  | commandExecution : List Char → RErr
  | sshConnection : List Char → RErr
  | sshAuth : List Char → RErr
  | config : List Char → RErr
  | unsupported : List Char → RErr
deriving DecidableEq, Repr

/-- Model of `CommandOutput` from `communication.rs:12-17`. -/
structure CommandOutput where
  stdout : List Char
  stderr : List Char
  exitCode : Int
deriving DecidableEq, Repr

/-!
## Serial channel state and login automation (`serial_channel.rs:43-309`)

`wait_for_prompt` and `try_read` are I/O; their outcomes for one run of
`login_if_needed` are collected in a `LoginEnv` record (the prompt waits at
lines 251, 267, 275 and 292, and the three wake-up `try_read`s at line 207).
-/

/-- Model of `SerialChannelConfig` (`serial_channel.rs:50-60`). -/
structure SerialChannelConfig where
  device : List Char
  baudRate : Nat
  timeout : Nat
  loginPrompt : Option (List Char)
  passwordPrompt : Option (List Char)
  shellPrompt : Option (List Char)
  username : Option (List Char)
  password : Option (List Char)
deriving DecidableEq, Repr

/-- The mutable fields of `SerialChannel` (`serial_channel.rs:43-48`); the
port handle is abstracted to its presence (`connected`). -/
structure SerialState where
  config : SerialChannelConfig
  connected : Bool
  loggedIn : Bool
deriving DecidableEq, Repr

/-- Environment of one `login_if_needed` run: outcomes of the three wake-up
`try_read`s (`some data` for `Ok(n)` with `n > 0`) and of the four possible
`wait_for_prompt` calls (`Except.error` covers both the timeout and the
read-error case, which `login_if_needed` does not distinguish where it
forgives). -/
structure LoginEnv where
  wakeReads : List (Option (List Char))
  shellWaitShort : Except RErr (List Char)
  loginWait : Except RErr (List Char)
  passwordWait : Except RErr (List Char)
  shellWaitLong : Except RErr (List Char)
deriving Repr

/-- Lines 207–228: a wake-up read whose ANSI-stripped text contains a bare
`'$'` or `'#'` makes `login_if_needed` return early with `logged_in = true`. -/
def wakeShellDetected (reads : List (Option (List Char))) : Bool :=
  reads.any (fun r =>
    match r with
    | some data => (stripAnsi data).contains '$' || (stripAnsi data).contains '#'
    | none => false)

/-- Lines 289–304: the final shell-prompt wait; a miss is forgiven with a
warning, and with no configured prompt the code just sleeps.  Always ends
with `logged_in = true`. -/
def loginShellPhase (cfg : SerialChannelConfig) (env : LoginEnv) : Except RErr Bool :=
  match cfg.shellPrompt with
  | some _ =>
      match env.shellWaitLong with
      | .ok _ => .ok true
      | .error _ => .ok true
  | none => .ok true

/-- Lines 263–287: the login-prompt phase.  A missed login prompt is forgiven
(`logged_in = true`, early return); a missed password prompt propagates its
error (`?` at line 275). -/
def loginPromptPhase (cfg : SerialChannelConfig) (env : LoginEnv) : Except RErr Bool :=
  match cfg.loginPrompt with
  | some _ =>
      match env.loginWait with
      | .error _ => .ok true
      | .ok _ =>
          -- send username (write assumed to succeed)
          match cfg.passwordPrompt, cfg.password with
          | some _, some _ =>
              match env.passwordWait with
              | .error e => .error e
              | .ok _ => loginShellPhase cfg env
          | _, _ => loginShellPhase cfg env
  | none => loginShellPhase cfg env

/-- Model of `SerialChannel::login_if_needed` (`serial_channel.rs:176-309`): returns
the new value of `logged_in` (`true` on every `Ok`). -/
def loginIfNeeded (cfg : SerialChannelConfig) (loggedIn : Bool) (env : LoginEnv) :
    Except RErr Bool :=
  if loggedIn then .ok true
  else if wakeShellDetected env.wakeReads then .ok true
  else
    match cfg.username with
    | none => .ok true
    | some _ =>
        let alreadyAtShell : Bool :=
          match cfg.shellPrompt with
          | some _ => env.shellWaitShort.isOk
          | none => false
        if alreadyAtShell then .ok true
        else loginPromptPhase cfg env

/-- Environment of one `execute_command_with_timeout` run: the login
environment and the successful reads delivered before the deadline. -/
structure ExecEnv where
  login : LoginEnv
  chunks : List (List Char)
deriving Repr

/-- The timeout error message of `serial_channel.rs:502-505`. -/
def serialTimeoutMsg (timeoutSecs : Nat) : List Char :=
  "Command timeout after ".data ++ (Nat.repr timeoutSecs).data ++ "s".data

/-- Model of `SerialChannel::execute_command_with_timeout`
(`serial_channel.rs:354-507`).  Returns the post state, the list of writes
made to the port (here: the command send of line 375 with its `\r\n`), and
the result.  The loop completes iff folding the chunks reaches `done`;
otherwise the surrounding `timeout` fires (line 502). -/
def serialExecuteCommandWithTimeout (st : SerialState) (cmd : List Char)
    (timeoutSecs : Nat) (env : ExecEnv) :
    SerialState × List (List Char) × Except RErr CommandOutput :=
  if !st.connected then
    (st, [], .error (.communication "Serial port not connected".data))
  else
    match loginIfNeeded st.config st.loggedIn env.login with
    | .error e => (st, [], .error e)
    | .ok b =>
        let st := { st with loggedIn := b }
        let writes := [cmd ++ "\r\n".data]
        let shellPrompt := st.config.shellPrompt.getD pDollar
        let final := runSerialLoop cmd shellPrompt env.chunks
        if final.done then
          (st, writes, .ok ⟨final.stdout, [], 0⟩)
        else
          (st, writes, .error (.commandExecution (serialTimeoutMsg timeoutSecs)))

/-- Model of `SerialChannel::execute_command` (`serial_channel.rs:349-352`):
delegates with a 30-second timeout. -/
def serialExecuteCommand (st : SerialState) (cmd : List Char) (env : ExecEnv) :
    SerialState × List (List Char) × Except RErr CommandOutput :=
  serialExecuteCommandWithTimeout st cmd 30 env

/-- Model of `SerialChannel::connect` (`serial_channel.rs:314-337`): open the port
(outcome `openOk`), set `connected := true`, then run the login automation. -/
def serialConnect (st : SerialState) (openOk : Bool) (env : LoginEnv) :
    SerialState × Except RErr Unit :=
  if !openOk then
    (st, .error (.serialConnection "Failed to open serial port".data))
  else
    let st := { st with connected := true }
    match loginIfNeeded st.config st.loggedIn env with
    | .error e => (st, .error e)
    | .ok b => ({ st with loggedIn := b }, .ok ())

/-!
## Windows serial channel (`serial_channel_windows.rs`)

`execute_command_with_timeout` (lines 357–427): guard on `connected`, send
the command, run `read_response` (whose outcome is an input here), strip
ANSI codes, and parse echo / prompt out of the response.
-/

/-- Model of `WindowsSerialChannel::has_prompt` (`serial_channel_windows.rs:296-311`):
prompt heuristics on the trimmed last line. -/
def hasPromptWin (text : List Char) : Bool :=
  match (rustLines text).getLast? with
  | some lastLine =>
      let t := rustTrim lastLine
      pDollar.isSuffixOf t || pHash.isSuffixOf t ||
        ['$'].isSuffixOf t || ['#'].isSuffixOf t ||
        containsStr t pDollar || containsStr t pHash
  | none => false

/-- The echo-skipping line scan of `serial_channel_windows.rs:378-405`. -/
def winCollectOutput (cmd : List Char) : List (List Char) → Bool → List (List Char)
  | [], _ => []
  | line :: rest, foundCommand =>
      let t := rustTrim line
      if !foundCommand && t.isEmpty then winCollectOutput cmd rest foundCommand
      else if !foundCommand && (containsStr t cmd || cmd.isSuffixOf t) then
        winCollectOutput cmd rest true
      else if foundCommand then
        if hasPromptWin line then []
        else line :: winCollectOutput cmd rest foundCommand
      else winCollectOutput cmd rest foundCommand

/-- The trailing-prompt removal of `serial_channel_windows.rs:410-416`:
split at the last `'\n'` and drop the tail if it looks like a prompt. -/
def winDropTrailingPrompt (stdout : List Char) : List Char :=
  match rfindStrIdx ['\n'] stdout with
  | some pos =>
      let content := stdout.take pos
      let maybe := stdout.drop pos
      if hasPromptWin maybe then content else stdout
  | none => stdout

/-- Model of `WindowsSerialChannel::execute_command_with_timeout`
(`serial_channel_windows.rs:357-427`).  `sendRes` and `readRes` are the
outcomes of `send_command` and `read_response`. -/
def winExecuteCommandWithTimeout (connected : Bool) (cmd : List Char)
    (_timeoutSecs : Nat) (sendRes : Except RErr Unit)
    (readRes : Except RErr (List Char)) : Except RErr CommandOutput :=
  if !connected then
    .error (.serialConnection "Not connected to serial device".data)
  else
    match sendRes with
    | .error e => .error e
    | .ok _ =>
        match readRes with
        | .error e => .error e
        | .ok response =>
            let cleaned := stripAnsiWin response
            let lines := rustLines cleaned
            let stdout := joinLines (winCollectOutput cmd lines false)
            let stdout := winDropTrailingPrompt stdout
            .ok ⟨rustTrim stdout, [], 0⟩

/-- Model of `WindowsSerialChannel::execute_command`
(`serial_channel_windows.rs:352-355`): delegates with a 30-second timeout. -/
def winExecuteCommand (connected : Bool) (cmd : List Char)
    (sendRes : Except RErr Unit) (readRes : Except RErr (List Char)) :
    Except RErr CommandOutput :=
  winExecuteCommandWithTimeout connected cmd 30 sendRes readRes

/-!
## SSH channel (`ssh_channel.rs`)

`execute_command_with_timeout` (lines 184–230) opens an exec channel, runs
the command, reads both streams, waits for close and reads the exit
status.  The outcomes of those five session operations are collected in
`SshStepResults`.  The `timeout` parameter of the Rust function is named
`_timeout` and is never read.
-/

/-- Outcomes of the per-command session operations used by
`SshChannel::execute_command_with_timeout`. -/
structure SshStepResults where
  channelSession : Except (List Char) Unit
  exec : Except (List Char) Unit
  readStdout : Except (List Char) (List Char)
  readStderr : Except (List Char) (List Char)
  waitClose : Except (List Char) Unit
  exitStatus : Except (List Char) Int
deriving Repr

/-- Model of `SshChannel::execute_command_with_timeout` (`ssh_channel.rs:184-230`);
`session = none` models `self.session == None`. -/
def sshExecuteCommandWithTimeout (session : Option SshStepResults)
    (_cmd : List Char) (_timeoutSecs : Nat) : Except RErr CommandOutput :=
  match session with
  | none => .error (.communication "Not connected".data)
  | some s =>
      match s.channelSession with
      | .error e => .error (.commandExecution ("Failed to create channel: ".data ++ e))
      | .ok _ =>
      match s.exec with
      | .error e => .error (.commandExecution ("Failed to execute command: ".data ++ e))
      | .ok _ =>
      match s.readStdout with
      | .error e => .error (.commandExecution ("Failed to read stdout: ".data ++ e))
      | .ok stdout =>
      match s.readStderr with
      | .error e => .error (.commandExecution ("Failed to read stderr: ".data ++ e))
      | .ok stderr =>
      match s.waitClose with
      | .error e => .error (.commandExecution ("Failed to close channel: ".data ++ e))
      | .ok _ =>
      match s.exitStatus with
      | .error e => .error (.commandExecution ("Failed to get exit status: ".data ++ e))
      | .ok code => .ok ⟨stdout, stderr, code⟩

/-- Model of `SshChannel::execute_command` (`ssh_channel.rs:179-182`): delegates with
a 60-second argument (which the callee never reads). -/
def sshExecuteCommand (session : Option SshStepResults) (cmd : List Char) :
    Except RErr CommandOutput :=
  sshExecuteCommandWithTimeout session cmd 60

/-!
## `SshClient` (`ssh.rs:128-175`)

Same stream-reading sequence, plus the after-the-fact elapsed-time
comparison of lines 161–165 which only emits a warning.  The model returns
the warning flag alongside the result.
-/

/-- Model of `CommandResult` from `target.rs` as produced by `ssh.rs:169-174`. -/
structure CommandResult where
  stdout : List Char
  stderr : List Char
  exitCode : Int
  durationSecs : Nat
deriving DecidableEq, Repr

/-- Session-operation outcomes for `SshClient::execute_command_with_timeout`,
with the observed elapsed time. -/
structure SshClientSteps where
  channelSession : Except (List Char) Unit
  exec : Except (List Char) Unit
  readStdout : Except (List Char) (List Char)
  readStderr : Except (List Char) (List Char)
  waitClose : Except (List Char) Unit
  exitStatus : Except (List Char) Int
  elapsedSecs : Nat
deriving Repr

/-- Model of `SshClient::execute_command_with_timeout` (`ssh.rs:132-175`).  The first
component is whether the elapsed-vs-timeout warning of lines 163–165 is
emitted; the timeout influences nothing else. -/
def sshClientExecuteCommandWithTimeout (session : Option SshClientSteps)
    (_cmd : List Char) (timeoutSecs : Nat) : Bool × Except RErr CommandResult :=
  match session with
  | none => (false, .error (.sshConnection "Not connected".data))
  | some s =>
      match s.channelSession with
      | .error e => (false, .error (.commandExecution ("Failed to create channel: ".data ++ e)))
      | .ok _ =>
      match s.exec with
      | .error e => (false, .error (.commandExecution ("Failed to execute command: ".data ++ e)))
      | .ok _ =>
      match s.readStdout with
      | .error e => (false, .error (.commandExecution ("Failed to read stdout: ".data ++ e)))
      | .ok stdout =>
      match s.readStderr with
      | .error e => (false, .error (.commandExecution ("Failed to read stderr: ".data ++ e)))
      | .ok stderr =>
      match s.waitClose with
      | .error e => (false, .error (.commandExecution ("Failed to close channel: ".data ++ e)))
      | .ok _ =>
      match s.exitStatus with
      | .error e => (false, .error (.commandExecution ("Failed to get exit status: ".data ++ e)))
      | .ok code =>
          (decide (s.elapsedSecs > timeoutSecs),
            .ok ⟨stdout, stderr, code, s.elapsedSecs⟩)

/-!
## SSH authentication (`ssh_channel.rs:66-124` and `connect`, lines 149–159)

`try_key_auth` walks a list of candidate key paths; with a configured
specific path the list is that single path, and a failed attempt `break`s
instead of cascading.  `connect` falls back to a single password attempt
when no key attempt succeeded.  The filesystem and the server are oracles
in `SshAuthEnv`; every authentication call is recorded as an `AuthEvent`.
-/

/-- One observable authentication call on the session. -/
inductive AuthEvent where
  | keyAttempt : List Char → AuthEvent
  | passwordAttempt : AuthEvent
deriving DecidableEq, Repr

/-- Model of `SshChannelConfig` (`ssh_channel.rs:23-32`). -/
structure SshChannelConfig where
  host : List Char
  port : Nat
  user : List Char
  password : List Char
  sshKeyPath : Option (List Char)
  timeout : Nat
  sshMultiplex : Bool

/-- Oracles for one `connect`: `pathExists` is `Path::new(..).exists()`,
`keyAuth path pub` the outcome of `session.userauth_pubkey_file`, `pwAuth`
the outcome of `session.userauth_password`, `authenticated` the final
`session.authenticated()` check, `home` the `HOME` variable. -/
structure SshAuthEnv where
  home : List Char
  pathExists : List Char → Bool
  keyAuth : List Char → Option (List Char) → Bool
  pwAuth : Bool
  authenticated : Bool

/-- The default key locations of `ssh_channel.rs:72-80`. -/
def defaultKeyPaths (home : List Char) : List (List Char) :=
  ["test_device_key".data,
   home ++ "/.ssh/test_device_key".data,
   home ++ "/.ssh/id_ed25519".data,
   home ++ "/.ssh/id_rsa".data,
   home ++ "/.ssh/id_ecdsa".data,
   home ++ "/.ssh/id_dsa".data]

/-- The `for key_path in key_paths` loop of `ssh_channel.rs:83-121`:
nonexistent paths are skipped; an attempt uses `<key>.pub` when present;
on failure with a configured specific key the loop `break`s. -/
def tryKeyAuthGo (specificKey : Bool) (env : SshAuthEnv) :
    List (List Char) → List AuthEvent → Bool × List AuthEvent
  | [], events => (false, events)
  | p :: rest, events =>
      if env.pathExists p then
        let pubPath := p ++ ".pub".data
        let ok :=
          if env.pathExists pubPath then env.keyAuth p (some pubPath)
          else env.keyAuth p none
        let events := events ++ [.keyAttempt p]
        if ok then (true, events)
        else if specificKey then (false, events)
        else tryKeyAuthGo specificKey env rest events
      else tryKeyAuthGo specificKey env rest events

/-- Model of `SshChannel::try_key_auth` (`ssh_channel.rs:66-124`). -/
def tryKeyAuth (cfg : SshChannelConfig) (env : SshAuthEnv) : Bool × List AuthEvent :=
  let keyPaths :=
    match cfg.sshKeyPath with
    | some kp => [kp]
    | none => defaultKeyPaths env.home
  tryKeyAuthGo cfg.sshKeyPath.isSome env keyPaths []

/-- The authentication portion of `SshChannel::connect`
(`ssh_channel.rs:149-159`): fall back to one password attempt when key
authentication did not succeed, then check `session.authenticated()`. -/
def sshConnectAuth (cfg : SshChannelConfig) (env : SshAuthEnv) :
    Except RErr Unit × List AuthEvent :=
  let (keyOk, events) := tryKeyAuth cfg env
  if keyOk then
    (if env.authenticated then .ok ()
     else .error (.sshAuth "Authentication failed".data), events)
  else
    let events := events ++ [.passwordAttempt]
    if !env.pwAuth then
      (.error (.sshAuth "Password authentication failed: ".data), events)
    else if !env.authenticated then
      (.error (.sshAuth "Authentication failed".data), events)
    else (.ok (), events)

/-!
## Concrete fixtures used to evaluate the models on sample runs
-/

/-- A serial configuration with full login credentials except a password. -/
def cfgLogin : SerialChannelConfig :=
  ⟨"/dev/ttyUSB0".data, 115200, 10, some "login:".data, none, some pDollar,
    some "root".data, none⟩

/-- Variant of `cfgLogin` with a password prompt and password configured. -/
def cfgLoginPw : SerialChannelConfig :=
  { cfgLogin with passwordPrompt := some "Password:".data, password := some "pw".data }

/-- A generic prompt-wait timeout error (`serial_channel.rs:148-151`). -/
def errTimeout : RErr := .serialConnection "Timeout waiting for prompt: ".data

/-- A login run where nothing answers: no wake-up response, the early
shell-prompt check times out, and the login prompt never appears. -/
def envLoginMiss : LoginEnv :=
  ⟨[none, none, none], .error errTimeout, .error errTimeout, .ok [], .ok []⟩

/-- A login run where the login prompt appears but the final shell prompt
wait times out. -/
def envShellMiss : LoginEnv :=
  ⟨[none, none, none], .error errTimeout, .ok "login:".data, .ok [], .error errTimeout⟩

/-- A login run where the password prompt wait times out. -/
def envPasswordMiss : LoginEnv :=
  ⟨[none, none, none], .error errTimeout, .ok "login:".data, .error errTimeout, .ok []⟩

/-- A trivial login environment for an already-logged-in channel. -/
def envNoLogin : LoginEnv := ⟨[], .ok [], .ok [], .ok [], .ok []⟩

/-- An execution run delivering the echo transcript in one read. -/
def envEchoRun : ExecEnv := ⟨envNoLogin, [echoTranscript]⟩

/-- A connected, logged-in serial channel with shell prompt `"$ "`. -/
def stReady : SerialState := ⟨cfgLogin, true, true⟩

/-- A never-connected serial channel. -/
def stDisconnected : SerialState := ⟨cfgLogin, false, false⟩

/-- An SSH configuration with a specific key path configured. -/
def cfgSshKey : SshChannelConfig :=
  ⟨"192.168.0.10".data, 22, "fio".data, "fio".data, some "/tmp/key".data, 10, false⟩

/-- An SSH environment where every path exists and the server rejects every
key but accepts the password. -/
def envKeyRejected : SshAuthEnv :=
  ⟨"/root".data, fun _ => true, fun _ _ => false, true, true⟩

/-!
## Helper lemmas about the ANSI strippers
-/

/-- The output of the Unix stripper never contains an ESC character, from
any machine state. -/
theorem escCh_not_mem_stripAnsiGo (s : List Char) :
    ∀ m : AnsiMode, escCh ∉ stripAnsiGo m s := by
  induction s with
  | nil => intro m; cases m <;> simp [stripAnsiGo]
  | cons c rest ih =>
      intro m
      cases m with
      | normal =>
          by_cases hc : c = escCh
          · simpa [stripAnsiGo, hc] using ih .sawEsc
          · simp only [stripAnsiGo, if_neg hc, List.mem_cons, not_or]
            exact ⟨fun h => hc h.symm, ih .normal⟩
      | sawEsc =>
          by_cases hb : c = '['
          · simpa [stripAnsiGo, hb] using ih .inCsi
          · by_cases hc : c = escCh
            · simpa [stripAnsiGo, hb, hc] using ih .sawEsc
            · simp only [stripAnsiGo, if_neg hb, if_neg hc, List.mem_cons, not_or]
              exact ⟨fun h => hc h.symm, ih .normal⟩
      | inCsi =>
          by_cases ha : isAsciiAlphabetic c
          · simpa [stripAnsiGo, ha] using ih .normal
          · simpa [stripAnsiGo, ha] using ih .inCsi

/-- On ESC-free input the Unix stripper is the identity. -/
theorem stripAnsiGo_of_not_mem (s : List Char) (h : escCh ∉ s) :
    stripAnsiGo .normal s = s := by
  induction s with
  | nil => simp [stripAnsiGo]
  | cons c rest ih =>
      simp only [List.mem_cons, not_or] at h
      have hc : ¬c = escCh := fun hh => h.1 hh.symm
      simp [stripAnsiGo, hc, ih h.2]

/-- The Unix stripper passes an ESC-free block through unchanged and keeps
processing the remainder in normal mode. -/
theorem stripAnsiGo_append (a t : List Char) (h : escCh ∉ a) :
    stripAnsiGo .normal (a ++ t) = a ++ stripAnsiGo .normal t := by
  induction a with
  | nil => simp
  | cons c rest ih =>
      simp only [List.mem_cons, not_or] at h
      have hc : ¬c = escCh := fun hh => h.1 hh.symm
      simp [stripAnsiGo, hc, ih h.2]

/-- Inside a CSI sequence, the non-alphabetic body and the alphabetic
terminator are consumed, and processing resumes in normal mode. -/
theorem stripAnsiGo_inCsi (mid : List Char)
    (h : ∀ x ∈ mid, isAsciiAlphabetic x = false) {c : Char}
    (hc : isAsciiAlphabetic c = true) (b : List Char) :
    stripAnsiGo .inCsi (mid ++ c :: b) = stripAnsiGo .normal b := by
  induction mid with
  | nil => simp [stripAnsiGo, hc]
  | cons x rest ih =>
      have hx : isAsciiAlphabetic x = false := h x (List.mem_cons_self x rest)
      simp only [List.cons_append, stripAnsiGo, hx]
      exact ih (fun y hy => h y (List.mem_cons_of_mem x hy))

/-- On inputs free of ESC and CR, the Windows stripper is the identity. -/
theorem stripAnsiWinGo_of_not_mem (s : List Char) (h : escCh ∉ s)
    (hr : '\r' ∉ s) : stripAnsiWinGo .normal s = s := by
  induction s with
  | nil => simp [stripAnsiWinGo]
  | cons c rest ih =>
      simp only [List.mem_cons, not_or] at h hr
      have hc : ¬c = escCh := fun hh => h.1 hh.symm
      have hcr : ¬c = '\r' := fun hh => hr.1 hh.symm
      simp [stripAnsiWinGo, hc, hcr, ih h.2 hr.2]

/-!
## Claim theorems
-/

/-- C1: the serial output extraction of `execute_command_with_timeout` is
NOT chunking-independent.  For shell prompt `"$ "` and command `"echo hi"`,
the transcript `"echo hi\r\nhi\r\n$ "` delivered in one read completes with
stdout `"hi"`, but the same transcript delivered one byte at a time
completes with stdout `"echo hi\r\nhi\n$"` — the echo line is re-introduced
by the re-anchoring fallback (`serial_channel.rs:448-451`) and the prompt is
not found by `rfind` at removal time.  This contradicts the spec's
chunking-independence property (and, for the byte-at-a-time delivery, its
echo-separation property). -/
theorem c1_chunking_dependent :
    (byteChunks echoTranscript).flatten = echoTranscript ∧
    (runSerialLoop "echo hi".data pDollar [echoTranscript]).done = true ∧
    (runSerialLoop "echo hi".data pDollar [echoTranscript]).stdout = "hi".data ∧
    (runSerialLoop "echo hi".data pDollar (byteChunks echoTranscript)).done = true ∧
    (runSerialLoop "echo hi".data pDollar (byteChunks echoTranscript)).stdout
        = "echo hi\r\nhi\n$".data ∧
    (runSerialLoop "echo hi".data pDollar (byteChunks echoTranscript)).stdout ≠
      (runSerialLoop "echo hi".data pDollar [echoTranscript]).stdout := by
  decide

/-- C2 counterexample: with working stdout `"a$ b$ c"` and shell prompt
`"$ "`, the first occurrence of `"$ "` is at index 1, but the text removed
by the prompt-removal loop starts at index 4 (the `rfind`, i.e. last,
occurrence): the result is `"a$ b"`, not `trim (take 1)` = `"a"`. -/
theorem c2_counterexample :
    removePromptAndTrim pDollar "a$ b$ c".data = "a$ b".data ∧
    findStrIdx pDollar "a$ b$ c".data = some 1 ∧
    removePromptAndTrim pDollar "a$ b$ c".data ≠
      rustTrim (("a$ b$ c".data).take 1) := by
  decide

/-- C2 (amended): on completion the loop removes everything from the LAST
occurrence (Rust `rfind`) of the first matching pattern — patterns checked
in the order `"$ "`, `"# "`, configured prompt — from the working stdout,
then trims whitespace; with no pattern present it only trims. -/
theorem c2_last_occurrence_removal (sp s : List Char) :
    (∀ pos, rfindStrIdx pDollar s = some pos →
        removePromptAndTrim sp s = rustTrim (s.take pos)) ∧
    (rfindStrIdx pDollar s = none →
      ∀ pos, rfindStrIdx pHash s = some pos →
        removePromptAndTrim sp s = rustTrim (s.take pos)) ∧
    (rfindStrIdx pDollar s = none → rfindStrIdx pHash s = none →
      ∀ pos, rfindStrIdx sp s = some pos →
        removePromptAndTrim sp s = rustTrim (s.take pos)) ∧
    (rfindStrIdx pDollar s = none → rfindStrIdx pHash s = none →
      rfindStrIdx sp s = none → removePromptAndTrim sp s = rustTrim s) := by
  refine ⟨?_, ?_, ?_, ?_⟩ <;> intros <;>
    simp_all [removePromptAndTrim, removePrompt]

/-- C2 witness: the last occurrence of `"$ "` in `"a$ b$ c"` is at index 4,
and the removal truncates there. -/
theorem c2_witness :
    removePromptAndTrim pDollar "a$ b$ c".data =
      rustTrim (("a$ b$ c".data).take 4) :=
  (c2_last_occurrence_removal pDollar "a$ b$ c".data).1 4 (by decide)

/-- C4 counterexample: the two ANSI-stripping functions are not extensionally
equal — on the input `"\r"` the Unix stripper returns `"\r"` while the
Windows stripper removes the carriage return. -/
theorem c4_counterexample :
    stripAnsi ['\r'] = ['\r'] ∧ stripAnsiWin ['\r'] = [] ∧
    stripAnsiWin ['\r'] ≠ stripAnsi ['\r'] := by
  decide

/-- C4 (amended): the Windows serial variant is not behaviorally identical
to the Unix channel; its ANSI stripper additionally removes carriage
returns and consumes the character following a bare ESC.  The two strippers
agree (both are the identity) exactly on the inputs containing neither ESC
nor CR. -/
theorem c4_strip_agree_without_esc_cr (s : List Char) (h : escCh ∉ s)
    (hr : '\r' ∉ s) : stripAnsiWin s = stripAnsi s := by
  unfold stripAnsiWin stripAnsi
  rw [stripAnsiWinGo_of_not_mem s h hr, stripAnsiGo_of_not_mem s h]

/-- C4 witness: on the plain string `"hello"` the two strippers agree. -/
theorem c4_witness : stripAnsiWin "hello".data = stripAnsi "hello".data :=
  c4_strip_agree_without_esc_cr "hello".data (by decide) (by decide)

/-- C8 counterexample: for the input `ESC X ESC [ 0 m A`, which contains the
ANSI sequence `ESC [ 0 m`, the stripper removes that sequence but ALSO drops
the bare leading ESC, so a character outside the sequence is altered: the
result is `"XA"`, not `ESC X A`. -/
theorem c8_counterexample :
    stripAnsi (escCh :: 'X' :: escCh :: "[0m".data ++ "A".data) = "XA".data ∧
    stripAnsi (escCh :: 'X' :: escCh :: "[0m".data ++ "A".data) ≠
      escCh :: 'X' :: "A".data := by
  decide

/-- C8 (amended): ANSI stripping is idempotent; and every
`ESC '[' ... <letter>` sequence is removed entirely while characters outside
ESC-initiated subsequences are unaltered — the qualification forced by the
counterexample being that a bare ESC (one not followed by `'['`) is itself
also dropped, so the prefix must be ESC-free for it to pass through
verbatim. -/
theorem c8_idempotent_and_removal :
    (∀ s : List Char, stripAnsi (stripAnsi s) = stripAnsi s) ∧
    (∀ (a mid b : List Char) (c : Char), escCh ∉ a →
        (∀ x ∈ mid, isAsciiAlphabetic x = false) →
        isAsciiAlphabetic c = true →
        stripAnsi (a ++ escCh :: '[' :: mid ++ c :: b) = a ++ stripAnsi b) := by
  constructor
  · intro s
    exact stripAnsiGo_of_not_mem _ (escCh_not_mem_stripAnsiGo s .normal)
  · intro a mid b c ha hmid hc
    unfold stripAnsi
    simp only [List.append_assoc, List.cons_append]
    rw [stripAnsiGo_append a (escCh :: '[' :: (mid ++ c :: b)) ha]
    congr 1
    simp only [stripAnsiGo, if_pos]
    exact stripAnsiGo_inCsi mid hmid hc b

/-- C8 witness: stripping `"A" ++ ESC [ 3 m ++ "B"` removes the sequence and
keeps `"A"` and (the stripping of) `"B"`; idempotence applied at a concrete
string. -/
theorem c8_witness :
    stripAnsi ("A".data ++ escCh :: '[' :: "3".data ++ 'm' :: "B".data)
        = "A".data ++ stripAnsi "B".data ∧
    stripAnsi (stripAnsi (escCh :: "[31mok".data)) =
      stripAnsi (escCh :: "[31mok".data) :=
  ⟨c8_idempotent_and_removal.2 "A".data "3".data "B".data 'm' (by decide)
      (by decide) (by decide),
    c8_idempotent_and_removal.1 (escCh :: "[31mok".data)⟩

/-- C3: the SSH `execute_command_with_timeout` never consults the requested
timeout — the parameter is unused in `SshChannel` (`ssh_channel.rs:187`,
`_timeout`), so the returned `Result` is identical for any two timeout
values and no timeout-specific error can be produced; in `SshClient`
(`ssh.rs:161-165`) the elapsed-vs-timeout comparison happens after the fact
and influences only the warning flag, never the returned result. -/
theorem c3_ssh_timeout_advisory :
    (∀ (s : Option SshStepResults) (cmd : List Char) (t₁ t₂ : Nat),
        sshExecuteCommandWithTimeout s cmd t₁
          = sshExecuteCommandWithTimeout s cmd t₂) ∧
    (∀ (s : Option SshClientSteps) (cmd : List Char) (t₁ t₂ : Nat),
        (sshClientExecuteCommandWithTimeout s cmd t₁).2
          = (sshClientExecuteCommandWithTimeout s cmd t₂).2) := by
  constructor
  · intro s cmd t₁ t₂
    rfl
  · intro s cmd t₁ t₂
    cases s with
    | none => rfl
    | some st =>
        obtain ⟨cs, ex, rso, rse, wc, es, el⟩ := st
        cases cs <;> cases ex <;> cases rso <;> cases rse <;> cases wc <;>
          cases es <;> rfl

/-- C5: with a specific key path configured that exists and is rejected by
the server, `connect` makes exactly one key-authentication attempt (with
that path) followed by exactly one password attempt — no other key path is
tried. -/
theorem c5_key_precedence (cfg : SshChannelConfig) (env : SshAuthEnv)
    (kp : List Char) (hkp : cfg.sshKeyPath = some kp)
    (hex : env.pathExists kp = true)
    (hfail : (if env.pathExists (kp ++ ".pub".data)
        then env.keyAuth kp (some (kp ++ ".pub".data))
        else env.keyAuth kp none) = false) :
    (sshConnectAuth cfg env).2 = [.keyAttempt kp, .passwordAttempt] := by
  unfold sshConnectAuth tryKeyAuth
  rw [hkp]
  simp only [Option.isSome_some, tryKeyAuthGo, hex, hfail, if_true, if_false]
  by_cases hpw : env.pwAuth <;> by_cases hau : env.authenticated <;>
    simp [hpw, hau]

/-- C5 witness: with key path `"/tmp/key"` configured, a filesystem where
every path exists, and a session that rejects every key, the observable
authentication calls are exactly one key attempt with `"/tmp/key"` followed
by one password attempt. -/
theorem c5_witness :
    (sshConnectAuth cfgSshKey envKeyRejected).2
      = [.keyAttempt "/tmp/key".data, .passwordAttempt] :=
  c5_key_precedence cfgSshKey envKeyRejected "/tmp/key".data rfl rfl rfl

/-- C6: on every channel, `execute_command` returns exactly the result of
`execute_command_with_timeout` with the 30-second default: directly by
delegation for the serial channels (`serial_channel.rs:349-352`,
`serial_channel_windows.rs:352-355`), and for SSH because the callee never
reads the timeout argument (the delegating constant is 60 s, which is
observationally the same). -/
theorem c6_execute_command_default :
    (∀ (s : Option SshStepResults) (cmd : List Char),
        sshExecuteCommand s cmd = sshExecuteCommandWithTimeout s cmd 30) ∧
    (∀ (st : SerialState) (cmd : List Char) (env : ExecEnv),
        serialExecuteCommand st cmd env
          = serialExecuteCommandWithTimeout st cmd 30 env) ∧
    (∀ (connected : Bool) (cmd : List Char) (sendRes : Except RErr Unit)
        (readRes : Except RErr (List Char)),
        winExecuteCommand connected cmd sendRes readRes
          = winExecuteCommandWithTimeout connected cmd 30 sendRes readRes) :=
  ⟨fun _ _ => rfl, fun _ _ _ => rfl, fun _ _ _ _ => rfl⟩

/-- C7: every successful serial command execution — Unix
(`serial_channel.rs:495-499`) or Windows
(`serial_channel_windows.rs:422-426`) — returns `stderr = ""` and
`exit_code = 0`, whatever the command printed. -/
theorem c7_serial_stderr_exit :
    (∀ (st : SerialState) (cmd : List Char) (t : Nat) (env : ExecEnv)
        (st' : SerialState) (w : List (List Char)) (out : CommandOutput),
        serialExecuteCommandWithTimeout st cmd t env = (st', w, .ok out) →
        out.stderr = [] ∧ out.exitCode = 0) ∧
    (∀ (connected : Bool) (cmd : List Char) (t : Nat)
        (sendRes : Except RErr Unit) (readRes : Except RErr (List Char))
        (out : CommandOutput),
        winExecuteCommandWithTimeout connected cmd t sendRes readRes = .ok out →
        out.stderr = [] ∧ out.exitCode = 0) := by
  constructor
  · intro st cmd t env st' w out h
    unfold serialExecuteCommandWithTimeout at h
    split at h
    · simp [Prod.ext_iff] at h
    · split at h
      · simp [Prod.ext_iff] at h
      · dsimp only at h
        split at h
        · simp only [Prod.mk.injEq] at h
          obtain ⟨-, -, h3⟩ := h
          obtain rfl : _ = out := Except.ok.inj h3
          exact ⟨rfl, rfl⟩
        · simp [Prod.ext_iff] at h
  · intro connected cmd t sendRes readRes out h
    unfold winExecuteCommandWithTimeout at h
    split at h
    · simp at h
    · split at h
      · simp at h
      · split at h
        · simp at h
        · obtain rfl : _ = out := Except.ok.inj h
          exact ⟨rfl, rfl⟩

/-- C7 witness: the echo transcript delivered in one read yields
`stdout = "hi"`, empty stderr and exit code 0, on both serial channels. -/
theorem c7_witness :
    (CommandOutput.mk "hi".data [] 0).stderr = [] ∧
    (CommandOutput.mk "hi".data [] 0).exitCode = 0 :=
  c7_serial_stderr_exit.1 stReady "echo hi".data 30 envEchoRun stReady
    ["echo hi\r\n".data] ⟨"hi".data, [], 0⟩ (by decide)

/-- C9: the serial login automation forgives both a missed login prompt
(`serial_channel.rs:280-284`) and a missed final shell prompt (lines
296-299) — in each case `login_if_needed` returns success with
`logged_in = true`, and `connect` therefore succeeds — while a missed
password prompt is fatal (the `?` at line 275), so no other hard failure is
degraded. -/
theorem c9_forgiving_login :
    (∀ (cfg : SerialChannelConfig) (env : LoginEnv) (u lp : List Char)
        (e : RErr),
        wakeShellDetected env.wakeReads = false →
        cfg.username = some u →
        (cfg.shellPrompt = none ∨ env.shellWaitShort.isOk = false) →
        cfg.loginPrompt = some lp →
        env.loginWait = .error e →
        loginIfNeeded cfg false env = .ok true) ∧
    (∀ (cfg : SerialChannelConfig) (env : LoginEnv) (u sp lp lv : List Char)
        (e : RErr),
        wakeShellDetected env.wakeReads = false →
        cfg.username = some u →
        cfg.shellPrompt = some sp →
        env.shellWaitShort.isOk = false →
        cfg.loginPrompt = some lp →
        env.loginWait = .ok lv →
        cfg.passwordPrompt = none →
        env.shellWaitLong = .error e →
        loginIfNeeded cfg false env = .ok true) ∧
    (∀ (cfg : SerialChannelConfig) (env : LoginEnv) (u lp lv pp pw : List Char)
        (e : RErr),
        wakeShellDetected env.wakeReads = false →
        cfg.username = some u →
        (cfg.shellPrompt = none ∨ env.shellWaitShort.isOk = false) →
        cfg.loginPrompt = some lp →
        env.loginWait = .ok lv →
        cfg.passwordPrompt = some pp →
        cfg.password = some pw →
        env.passwordWait = .error e →
        loginIfNeeded cfg false env = .error e) ∧
    (∀ (st : SerialState) (env : LoginEnv) (u lp : List Char) (e : RErr),
        wakeShellDetected env.wakeReads = false →
        st.config.username = some u →
        (st.config.shellPrompt = none ∨ env.shellWaitShort.isOk = false) →
        st.config.loginPrompt = some lp →
        env.loginWait = .error e →
        serialConnect st true env
          = ({ st with connected := true, loggedIn := true }, .ok ())) := by
  refine ⟨?_, ?_, ?_, ?_⟩
  · intro cfg env u lp e hw hu hs hlp hlw
    unfold loginIfNeeded loginPromptPhase
    rcases hs with hs | hs
    · simp [hw, hu, hs, hlp, hlw]
    · cases hsp : cfg.shellPrompt <;> simp [hw, hu, hs, hsp, hlp, hlw]
  · intro cfg env u sp lp lv e hw hu hsp hs hlp hlw hppn hsl
    unfold loginIfNeeded loginPromptPhase loginShellPhase
    simp [hw, hu, hsp, hs, hlp, hlw, hppn, hsl]
  · intro cfg env u lp lv pp pw e hw hu hs hlp hlw hpp hpw hpww
    unfold loginIfNeeded loginPromptPhase
    rcases hs with hs | hs
    · simp [hw, hu, hs, hlp, hlw, hpp, hpw, hpww]
    · cases hsp : cfg.shellPrompt <;>
        simp [hw, hu, hs, hsp, hlp, hlw, hpp, hpw, hpww]
  · intro st env u lp e hw hu hs hlp hlw
    unfold serialConnect
    cases hli : st.loggedIn
    · have : loginIfNeeded st.config false env = .ok true := by
        unfold loginIfNeeded loginPromptPhase
        rcases hs with hs | hs
        · simp [hw, hu, hs, hlp, hlw]
        · cases hsp : st.config.shellPrompt <;>
            simp [hw, hu, hs, hsp, hlp, hlw]
      simp [hli, this]
    · have : loginIfNeeded st.config true env = .ok true := by
        unfold loginIfNeeded; simp
      simp [hli, this]

/-- C9 witness: with username and login prompt configured, a run where the
login prompt never appears still logs in (`envLoginMiss`); a run where the
final shell prompt never appears still logs in (`envShellMiss`); a missed
password prompt is fatal (`envPasswordMiss`); and `connect` succeeds on the
login-prompt miss. -/
theorem c9_witness :
    loginIfNeeded cfgLogin false envLoginMiss = .ok true ∧
    loginIfNeeded cfgLogin false envShellMiss = .ok true ∧
    loginIfNeeded cfgLoginPw false envPasswordMiss = .error errTimeout ∧
    serialConnect stDisconnected true envLoginMiss
      = (⟨cfgLogin, true, true⟩, .ok ()) :=
  ⟨c9_forgiving_login.1 cfgLogin envLoginMiss "root".data "login:".data
      errTimeout rfl rfl (Or.inr rfl) rfl rfl,
    c9_forgiving_login.2.1 cfgLogin envShellMiss "root".data pDollar
      "login:".data "login:".data errTimeout rfl rfl rfl rfl rfl rfl rfl rfl,
    c9_forgiving_login.2.2.1 cfgLoginPw envPasswordMiss "root".data
      "login:".data "login:".data "Password:".data "pw".data errTimeout rfl
      rfl (Or.inr rfl) rfl rfl rfl rfl rfl,
    c9_forgiving_login.2.2.2 stDisconnected envLoginMiss "root".data
      "login:".data errTimeout rfl rfl (Or.inr rfl) rfl rfl⟩

/-- C10: on a serial channel whose `connected` flag is false, both
`execute_command` and `execute_command_with_timeout` fail immediately with
the Communication error `"Serial port not connected"`
(`serial_channel.rs:359-363`), independently of the environment (no login
attempt is consulted), with no port write and the state unchanged. -/
theorem c10_not_connected_guard (st : SerialState) (cmd : List Char)
    (t : Nat) (env : ExecEnv) (h : st.connected = false) :
    serialExecuteCommandWithTimeout st cmd t env
        = (st, [], .error (.communication "Serial port not connected".data)) ∧
    serialExecuteCommand st cmd env
        = (st, [], .error (.communication "Serial port not connected".data)) := by
  constructor <;> simp [serialExecuteCommand, serialExecuteCommandWithTimeout, h]

/-- C10 witness: a never-connected channel rejects `"ls"` with the
Communication error, leaving state and port untouched. -/
theorem c10_witness :
    serialExecuteCommandWithTimeout stDisconnected "ls".data 5 envEchoRun
        = (stDisconnected, [],
            .error (.communication "Serial port not connected".data)) ∧
    serialExecuteCommand stDisconnected "ls".data envEchoRun
        = (stDisconnected, [],
            .error (.communication "Serial port not connected".data)) :=
  c10_not_connected_guard stDisconnected "ls".data 5 envEchoRun rfl

end SecCli
